import Mathlib

/-!
Verification development for the chrome-history MCP server.

The embedding models, from the JavaScript source:
  * the data-access layer `chrome-analyzer.js` (`searchHistory`,
    `getRecentBrowsing`, `getHistoryStats`, `extractBookmarks`,
    `getBookmarks`), with the SQLite queries it issues modelled as pure
    list transformations over an explicit store of `urls` and `visits`
    rows, and SQLite `LIKE` modelled with its documented wildcard and
    ASCII-case-folding semantics;
  * the request dispatcher of `mcp-server.js` (the `CallToolRequestSchema`
    handler), modelled as a total function `callTool` that returns the
    outcome (a ToolResult, or a protocol-level fault for an unknown tool
    name or an exception escaping a handler) together with the trace of
    Data-Provider invocations the handler performed.

External collaborators (the WHATWG URL parser used for hostname
extraction, the failure of the SQLite database layer) are modelled as
parameters of the environment.  JavaScript numbers are modelled as `Int`,
`undefined`-able values as `Option`, and JavaScript truthiness (`x || d`)
is spelled out per type.
-/

/-- ASCII lower-casing of a single character.  This is the case folding
SQLite's `LIKE` applies (case-insensitive for ASCII only). -/
def lowerChar (c : Char) : Char :=
  if 'A' ≤ c ∧ c ≤ 'Z' then Char.ofNat (c.toNat + 32) else c

/-- ASCII lower-casing of a character list. -/
def lowerList (s : List Char) : List Char :=
  s.map lowerChar

/-- All suffixes of a list, longest first (including the list itself and
the empty list). -/
def suffixes : List Char → List (List Char)
  | [] => [[]]
  | c :: cs => (c :: cs) :: suffixes cs

/-- SQLite `LIKE` pattern matching: `%` matches any character sequence,
an underscore matches exactly one character, and any other pattern
character matches case-insensitively (ASCII folding). -/
def likeMatch : List Char → List Char → Bool
  | [], s => s.isEmpty
  | p :: ps, s =>
    if p = '%' then (suffixes s).any (fun t => likeMatch ps t)
    else
      match s with
      | [] => false
      | c :: cs =>
        (if p = '_' then true else lowerChar p == lowerChar c) && likeMatch ps cs

/-- True when the string contains no SQLite `LIKE` wildcard character. -/
def noWildcards (q : List Char) : Bool :=
  q.all (fun c => c != '%' && c != '_')

/-- `listContains hay needle`: JavaScript `hay.includes(needle)` on
character lists (contiguous substring test). -/
def listContains (needle : List Char) : List Char → Bool
  | [] => needle.isPrefixOf []
  | c :: t => needle.isPrefixOf (c :: t) || listContains needle t

/-- JavaScript `x || d` for an optional number (`0` is falsy). -/
def jsOrNum (o : Option Int) (d : Int) : Int :=
  match o with
  | none => d
  | some n => if n = 0 then d else n

/-- Insert thousands separators in a reversed digit list (model of
JavaScript `Number.prototype.toLocaleString`). -/
def groupRev : List Char → List Char
  | c1 :: c2 :: c3 :: c4 :: rest => c1 :: c2 :: c3 :: ',' :: groupRev (c4 :: rest)
  | l => l

/-- Model of JavaScript `n.toLocaleString()` for integers: decimal
digits grouped by three with commas. -/
def toLocaleInt (n : Int) : String :=
  (if n < 0 then "-" else "") ++ ⟨(groupRev (toString n.natAbs).data.reverse).reverse⟩

/-- SQLite `LIMIT ?`: a negative bound means "no limit". -/
def applyLimit (n : Int) (l : List α) : List α :=
  if n < 0 then l else l.take n.toNat

/-- A calendar date, the parsed form of a `YYYY-MM-DD` argument string. -/
structure CivilDate where
  year : Nat
  month : Nat
  day : Nat
deriving DecidableEq

/-- Days from 1970-01-01 to the given proleptic-Gregorian date
(standard civil-from-days arithmetic, valid for year ≥ 1). -/
def daysFromCivil (c : CivilDate) : Int :=
  let y := if c.month ≤ 2 then c.year - 1 else c.year
  let era := y / 400
  let yoe := y % 400
  let mp := (c.month + 9) % 12
  let doy := (153 * mp + 2) / 5 + c.day - 1
  let doe := yoe * 365 + yoe / 4 - yoe / 100 + doy
  (era * 146097 + doe : Int) - 719468

/-- Milliseconds since the Unix epoch at 00:00:00 UTC of a civil date:
JavaScript `new Date('YYYY-MM-DD').getTime()`. -/
def civilMs (c : CivilDate) : Int :=
  daysFromCivil c * 86400000

/-- JavaScript `new Date('1601-01-01').getTime()`, the Chrome epoch
offset used throughout the source. -/
def ms1601 : Int := -11644473600000

theorem ms1601_eq_civil : ms1601 = civilMs ⟨1601, 1, 1⟩ := by decide

/-- Chrome timestamp (microseconds since 1601) for the start of day of a
date, as the source computes it: `new Date(startDate + 'T00:00:00')` is
parsed in local time (`tz` = the zone offset in milliseconds east of
UTC), then shifted by the 1601 epoch and scaled to microseconds. -/
def startTimestamp (tz : Int) (d : CivilDate) : Int :=
  (civilMs d - tz - ms1601) * 1000

/-- Chrome timestamp for the end of day (`T23:59:59.999`) of a date. -/
def endTimestamp (tz : Int) (d : CivilDate) : Int :=
  (civilMs d + 86399999 - tz - ms1601) * 1000

/-- Render a civil date back as `YYYY-MM-DD` (for echoing arguments in
result text). -/
def civilStr (c : CivilDate) : String :=
  let pad2 := fun (n : Nat) => if n < 10 then "0" ++ toString n else toString n
  toString c.year ++ "-" ++ pad2 c.month ++ "-" ++ pad2 c.day

/-- The value of SQLite
`datetime(t/1000000 + strftime('%s','1601-01-01'), 'unixepoch')`,
represented as seconds since the Unix epoch (SQLite renders it as a
date-time string; the numeric value is what the claims inspect). -/
def unixSecs (t : Int) : Int :=
  t / 1000000 - 11644473600

/-- A row of Chrome's `urls` table. -/
structure UrlRow where
  id : Nat
  url : String
  title : String
  visit_count : Int
  last_visit_time : Int
deriving DecidableEq

/-- A row of Chrome's `visits` table (`url` is the foreign key into
`urls.id`). -/
structure VisitRow where
  url : Nat
  visit_time : Int
deriving DecidableEq

/-- The history database contents. -/
structure HistoryStore where
  urls : List UrlRow
  visits : List VisitRow

/-- A row produced by the `searchHistory` SELECT. -/
structure HistoryEntry where
  url : String
  title : String
  visit_count : Int
  last_visit_time : Int
  last_visit_date : Int
deriving DecidableEq

/-- Projection of the `searchHistory` SELECT clause. -/
def rowToEntry (r : UrlRow) : HistoryEntry :=
  ⟨r.url, r.title, r.visit_count, r.last_visit_time, unixSecs r.last_visit_time⟩

/-- `ORDER BY urls.last_visit_time DESC`. -/
def byVisitDesc (a b : UrlRow) : Prop :=
  b.last_visit_time ≤ a.last_visit_time

instance : DecidableRel byVisitDesc := fun a b =>
  Int.decLe b.last_visit_time a.last_visit_time

instance : IsTotal UrlRow byVisitDesc :=
  ⟨fun a b => le_total b.last_visit_time a.last_visit_time⟩

instance : IsTrans UrlRow byVisitDesc :=
  ⟨fun _ _ _ h1 h2 => le_trans h2 h1⟩

/-- Options destructured by `searchHistory` (the dispatcher always
passes all three). -/
structure SearchOptions where
  startDate : Option CivilDate := none
  endDate : Option CivilDate := none
  limit : Int := 50
deriving DecidableEq

/-- JavaScript `s.trim()`: strip whitespace from both ends. -/
def jsTrim (s : String) : String :=
  ⟨((s.data.dropWhile Char.isWhitespace).reverse.dropWhile Char.isWhitespace).reverse⟩

/-- The `LIKE` parameter built by the source: `'%' + searchQuery + '%'`. -/
def sqlPat (q : String) : List Char :=
  '%' :: (q.data ++ ['%'])

/-- The WHERE clause of the `searchHistory` query, as built by the
source: an optional `urls.url LIKE ? OR urls.title LIKE ?` conjunct and
optional inclusive bounds on `urls.last_visit_time`. -/
def sqlWhere (tz : Int) (hasQ : Bool) (q : String) (sd ed : Option CivilDate)
    (r : UrlRow) : Bool :=
  (!hasQ || likeMatch (sqlPat q) r.url.data || likeMatch (sqlPat q) r.title.data)
    && (match sd with
        | none => true
        | some d => decide (startTimestamp tz d ≤ r.last_visit_time))
    && (match ed with
        | none => true
        | some d => decide (r.last_visit_time ≤ endTimestamp tz d))

/-- `chrome-analyzer.js` `searchHistory`: filter the `urls` table by the
WHERE clause, order by last visit time descending, apply `LIMIT`, and
project the SELECT columns. -/
def searchHistory (tz : Int) (searchQuery : String) (options : SearchOptions)
    (urls : List UrlRow) : List HistoryEntry :=
  let hasQ : Bool := decide (jsTrim searchQuery ≠ "")
  let rows := urls.filter (sqlWhere tz hasQ searchQuery options.startDate options.endDate)
  (applyLimit options.limit (List.insertionSort byVisitDesc rows)).map rowToEntry

/-- The joined rows of `FROM urls INNER JOIN visits ON urls.id = visits.url`. -/
def joinRows (urls : List UrlRow) (visits : List VisitRow) : List (UrlRow × VisitRow) :=
  match urls with
  | [] => []
  | u :: rest =>
    ((visits.filter (fun v => v.url == u.id)).map (fun v => (u, v))) ++ joinRows rest visits

/-- `ORDER BY visits.visit_time DESC` on joined rows. -/
def byVisitTimeDesc (a b : UrlRow × VisitRow) : Prop :=
  b.2.visit_time ≤ a.2.visit_time

instance : DecidableRel byVisitTimeDesc := fun a b =>
  Int.decLe b.2.visit_time a.2.visit_time

instance : IsTotal (UrlRow × VisitRow) byVisitTimeDesc :=
  ⟨fun a b => le_total b.2.visit_time a.2.visit_time⟩

instance : IsTrans (UrlRow × VisitRow) byVisitTimeDesc :=
  ⟨fun _ _ _ h1 h2 => le_trans h2 h1⟩

/-- A processed result row of `getRecentBrowsing`. -/
structure RecentEntry where
  url : String
  title : String
  last_visit_date : Int
  visit_count : Int
  domain : Option String
deriving DecidableEq

/-- The Chrome-epoch cutoff `getRecentBrowsing` computes:
`(Date.now() - hours*60*60*1000 - new Date('1601-01-01').getTime()) * 1000`. -/
def recentCutoff (now hours : Int) : Int :=
  (now - hours * 60 * 60 * 1000 - ms1601) * 1000

/-- `chrome-analyzer.js` `getRecentBrowsing`: join `urls` with `visits`,
keep visits at or after the cutoff, order by the individual visit time
descending, apply `LIMIT`, then build the processed result (per-visit
timestamp, `Untitled` fallback, and best-effort domain when details are
requested; `hostname` models the WHATWG URL parser, `none` = parse
failure mapped to `"Unknown"`). -/
def getRecentBrowsing (now : Int) (hours limit : Int) (includeDetails : Bool)
    (hostname : String → Option String) (store : HistoryStore) : List RecentEntry :=
  let cutoff := recentCutoff now hours
  let rows := (joinRows store.urls store.visits).filter
    (fun p => decide (cutoff ≤ p.2.visit_time))
  (applyLimit limit (List.insertionSort byVisitTimeDesc rows)).map (fun p =>
    { url := p.1.url
      title := if p.1.title = "" then "Untitled" else p.1.title
      last_visit_date := unixSecs p.2.visit_time
      visit_count := p.1.visit_count
      domain := if includeDetails then some ((hostname p.1.url).getD "Unknown") else none })

/-- SQL aggregate MIN over a list (NULL on the empty set). -/
def aggMin (l : List Int) : Option Int :=
  match l with
  | [] => none
  | x :: xs => some (xs.foldl min x)

/-- SQL aggregate MAX over a list (NULL on the empty set). -/
def aggMax (l : List Int) : Option Int :=
  match l with
  | [] => none
  | x :: xs => some (xs.foldl max x)

/-- SQL aggregate SUM over a list (NULL on the empty set). -/
def aggSum (l : List Int) : Option Int :=
  match l with
  | [] => none
  | x :: xs => some (xs.foldl (· + ·) x)

/-- The single row returned by the `getHistoryStats` aggregate query. -/
structure StatsRow where
  total_urls : Nat
  total_visits : Option Int
  earliest_visit : Option Int
  latest_visit : Option Int
deriving DecidableEq

/-- `chrome-analyzer.js` `getHistoryStats`: COUNT, SUM and MIN/MAX of the
converted last-visit times over the rows with `visit_count > 0`.  An
aggregate query always yields exactly one row; on an empty input set
COUNT is 0 and SUM/MIN/MAX are NULL. -/
def getHistoryStats (urls : List UrlRow) : StatsRow :=
  let rows := urls.filter (fun u => decide (0 < u.visit_count))
  { total_urls := rows.length
    total_visits := aggSum (rows.map (fun u => u.visit_count))
    earliest_visit := aggMin (rows.map (fun u => unixSecs u.last_visit_time))
    latest_visit := aggMax (rows.map (fun u => unixSecs u.last_visit_time)) }

/-- A node of Chrome's bookmark tree: a `type:"url"` leaf or a
`type:"folder"` node with children. -/
inductive BmNode where
  | url (name : String) (urlStr : String) (date_added : Int)
  | folder (name : String) (children : List BmNode)

/-- A flattened bookmark record as built by `extractBookmarks`
(`dateAdded` is `parseInt(date_added) / 1000`). -/
structure Bookmark where
  title : String
  url : String
  dateAdded : Int
  folder : String
deriving DecidableEq

/-- `chrome-analyzer.js` `extractBookmarks`, acting on the children list
of a node: depth-first traversal in stored child order; a `url` leaf
contributes one record whose `folder` is the accumulated path
(`"Root"` when the path is empty); a `folder` child extends the path
with `/` and its name (no separator at top level). -/
def extractBookmarks : List BmNode → String → List Bookmark
  | [], _ => []
  | BmNode.url n u da :: rest, fp =>
    ⟨n, u, da / 1000, if fp = "" then "Root" else fp⟩ :: extractBookmarks rest fp
  | BmNode.folder n cs :: rest, fp =>
    extractBookmarks cs (if fp = "" then n else fp ++ "/" ++ n) ++ extractBookmarks rest fp

/-- Case-insensitive JavaScript
`a.toLowerCase().includes(b.toLowerCase())` (ASCII folding). -/
def jsIncludesCI (a b : String) : Bool :=
  listContains (lowerList b.data) (lowerList a.data)

/-- `chrome-analyzer.js` `getBookmarks`: flatten every root of the
parsed bookmark file (each root name seeds the folder path), then, when
a non-empty target folder is given, keep the records whose accumulated
path contains it case-insensitively. -/
def getBookmarks (roots : List (String × List BmNode)) (targetFolder : Option String) :
    List Bookmark :=
  let allBookmarks := roots.flatMap (fun r => extractBookmarks r.2 r.1)
  match targetFolder with
  | some t => if t = "" then allBookmarks
              else allBookmarks.filter (fun b => jsIncludesCI b.folder t)
  | none => allBookmarks

/-- A content block of a ToolResult (the server only ever emits text). -/
inductive ContentBlock where
  | text (text : String)
deriving DecidableEq

/-- The result shape every handler returns. -/
structure ToolResult where
  content : List ContentBlock
deriving DecidableEq

/-- A protocol-level fault: either the `McpError` with the
`MethodNotFound` code thrown for an unknown tool name, or an uncaught
JavaScript `TypeError` escaping a handler (surfaced by the SDK as a
protocol-level error). -/
inductive Fault where
  | methodNotFound (message : String)
  | typeError (message : String)
deriving DecidableEq

/-- Outcome of one CallTool request. -/
inductive CallOutcome where
  | ok (result : ToolResult)
  | fault (f : Fault)
deriving DecidableEq

/-- One invocation of the Data Provider performed by a handler
(recorded so that "the provider was / was not called, and with which
arguments" is observable in the model). -/
inductive ProviderCall where
  | search (query : String) (startDate endDate : Option CivilDate) (limit : Int)
  | recent (hours limit : Int) (includeDetails : Bool)
  | stats
deriving DecidableEq

/-- The argument mapping of a CallTool request: every property any of
the six declared input schemas mentions, each absent-able.  Date-valued
strings are carried in parsed `CivilDate` form. -/
structure ToolArgs where
  query : Option String := none
  start_date : Option CivilDate := none
  end_date : Option CivilDate := none
  limit : Option Int := none
  folder : Option String := none
  include_urls : Option Bool := none
  timeframe : Option String := none
  include_domains : Option Bool := none
  format : Option String := none
  include_history : Option Bool := none
  include_bookmarks : Option Bool := none
  hours : Option Int := none
  include_visit_details : Option Bool := none
deriving DecidableEq

/-- The environment a request executes in: the history store, whether
the SQLite layer fails (`dbError` carries the rejection message of
`queryHistory`), the current time and zone offset, and the WHATWG URL
parser used for hostname extraction. -/
structure ServerEnv where
  store : HistoryStore
  dbError : Option String := none
  now : Int := 0
  tz : Int := 0
  hostname : String → Option String

/-- A ToolResult with a single text block. -/
def textResult (s : String) : ToolResult :=
  ⟨[ContentBlock.text s]⟩

/-- JavaScript `x || d` for an optional string (the empty string is
falsy). -/
def jsOrStr (o : Option String) (d : String) : String :=
  match o with
  | none => d
  | some s => if s = "" then d else s

/-- The Node.js `TypeError` message for reading a property of the
absent argument mapping. -/
def tyErrMsg (field : String) : String :=
  "Cannot read properties of undefined (reading \x27" ++ field ++ "\x27)"

/-- The Node.js `TypeError` message for `null.toLocaleString()`. -/
def nullLocaleMsg : String :=
  "Cannot read properties of null (reading \x27toLocaleString\x27)"

/-- The likely-cause list appended by the `search_history` catch block. -/
def searchErrSuffix : String :=
  "\n\nThis might occur if:\n- Chrome is not installed\n- Chrome profile cannot be accessed\n- History database is locked (Chrome is running)\n- Invalid date format (use YYYY-MM-DD)"

/-- The likely-cause list appended by the `get_recent_browsing` catch
block. -/
def recentErrSuffix : String :=
  "\n\nThis might occur if:\n- Chrome is not installed\n- Chrome profile cannot be accessed\n- History database is locked (Chrome is running)"

/-- The `Date range: ...` footer line. -/
def dateRangeLine (sd ed : Option CivilDate) : String :=
  "\nDate range: " ++ (match sd with | some d => civilStr d | none => "beginning")
    ++ " to " ++ (match ed with | some d => civilStr d | none => "present")

/-- One enumerated entry of the `search_history` result text. -/
def searchEntryText (hostname : String → Option String) (i : Nat) (e : HistoryEntry) :
    String :=
  toString (i + 1) ++ ". " ++ (if e.title = "" then "Untitled" else e.title) ++ "\n"
    ++ "   URL: " ++ e.url ++ "\n"
    ++ "   Last visited: " ++ toString e.last_visit_date ++ "\n"
    ++ "   Visit count: " ++ toString e.visit_count ++ "\n"
    ++ (match hostname e.url with
        | some h => "   Domain: " ++ h ++ "\n"
        | none => "")
    ++ "\n"

/-- The `search_history` success formatting, including the total-count
footer and the truncation notice when the result count equals the
limit. -/
def formatSearchResults (hostname : String → Option String) (query : String)
    (sd ed : Option CivilDate) (lim : Int) (rs : List HistoryEntry) : String :=
  let head := if query = "" then "Browsing history:\n\n"
              else "Search results for \"" ++ query ++ "\":\n\n"
  if rs.isEmpty then
    head ++ "No matching entries found in your browsing history."
      ++ (if sd.isSome || ed.isSome then dateRangeLine sd ed else "")
  else
    head ++ String.join ((rs.enum).map (fun p => searchEntryText hostname p.1 p.2))
      ++ "\nTotal results: " ++ toString rs.length
      ++ (if (rs.length : Int) = lim then " (limited to " ++ toString lim ++ " entries)" else "")
      ++ (if sd.isSome || ed.isSome then dateRangeLine sd ed else "")

/-- One enumerated entry of the `get_recent_browsing` result text. -/
def recentEntryText (includeDetails : Bool) (i : Nat) (e : RecentEntry) : String :=
  toString (i + 1) ++ ". " ++ (if e.title = "" then "Untitled" else e.title) ++ "\n"
    ++ "   URL: " ++ e.url ++ "\n"
    ++ "   Last visited: " ++ toString e.last_visit_date ++ "\n"
    ++ (if includeDetails then
          "   Visit count: " ++ toString e.visit_count ++ "\n"
            ++ (match e.domain with
                | some d => if d = "" then "" else "   Domain: " ++ d ++ "\n"
                | none => "")
        else "")
    ++ "\n"

/-- The `get_recent_browsing` success formatting. -/
def formatRecent (hours lim : Int) (includeDetails : Bool) (rs : List RecentEntry) :
    String :=
  let head := "Recent browsing activity (last " ++ toString hours ++ " hours):\n\n"
  if rs.isEmpty then
    head ++ "No browsing activity found in the specified timeframe."
  else
    head ++ String.join ((rs.enum).map (fun p => recentEntryText includeDetails p.1 p.2))
      ++ "\nTotal entries: " ++ toString rs.length
      ++ (if (rs.length : Int) = lim then " (limited to " ++ toString lim ++ " results)" else "")

/-- The `get_history_stats` success formatting (`tv` is the non-null
total-visits value; the null case throws before this text is built). -/
def statsText (s : StatsRow) (tv : Int) : String :=
  let optDate := fun (o : Option Int) =>
    match o with | none => "null" | some v => toString v
  "Chrome History Database Statistics:\n\n**Overview:**\n- Total unique URLs: "
    ++ toLocaleInt (s.total_urls : Int)
    ++ "\n- Total visits: " ++ toLocaleInt tv
    ++ "\n\n**Date Range:**\n- Earliest visit: " ++ optDate s.earliest_visit
    ++ "\n- Latest visit: " ++ optDate s.latest_visit
    ++ "\n\n**Note:** This shows the full range of data available in your Chrome history database.\nIf you\x27re not seeing results for specific dates, they might be outside this range."

/-- The `search_history` case of the dispatcher.  The whole body runs in
a try block: an absent argument mapping or a Data-Provider failure is
caught and reported as an error ToolResult.  The guard requiring a query
or a date range fires before the provider is consulted. -/
def searchHistoryCase (env : ServerEnv) (args : Option ToolArgs) :
    CallOutcome × List ProviderCall :=
  match args with
  | none =>
    (CallOutcome.ok (textResult ("Error searching history: " ++ tyErrMsg "query" ++ searchErrSuffix)), [])
  | some a =>
    let query := jsOrStr a.query ""
    let startDate := a.start_date
    let endDate := a.end_date
    let lim := jsOrNum a.limit 100
    if query = "" ∧ startDate = none ∧ endDate = none then
      (CallOutcome.ok (textResult "Error: Please provide either a search query or a date range (or both)"), [])
    else
      match env.dbError with
      | some m =>
        (CallOutcome.ok (textResult ("Error searching history: " ++ m ++ searchErrSuffix)),
         [ProviderCall.search query startDate endDate lim])
      | none =>
        (CallOutcome.ok (textResult (formatSearchResults env.hostname query startDate endDate lim
           (searchHistory env.tz query ⟨startDate, endDate, lim⟩ env.store.urls))),
         [ProviderCall.search query startDate endDate lim])

/-- The `get_bookmarks` case: a placeholder acknowledgement that never
touches the arguments or the provider. -/
def bookmarksCase : CallOutcome × List ProviderCall :=
  (CallOutcome.ok (textResult "Placeholder: Retrieving bookmarks\nThis tool will read Chrome bookmarks and organize them by folders."), [])

/-- The `analyze_browsing_patterns` case: placeholder text interpolating
`args.timeframe || 'week'` outside any try block, so an absent argument
mapping raises an uncaught `TypeError`. -/
def analyzeCase (args : Option ToolArgs) : CallOutcome × List ProviderCall :=
  match args with
  | none => (CallOutcome.fault (Fault.typeError (tyErrMsg "timeframe")), [])
  | some a =>
    (CallOutcome.ok (textResult ("Placeholder: Analyzing browsing patterns for "
       ++ jsOrStr a.timeframe "week"
       ++ "\nThis tool will generate insights about browsing habits and frequently visited sites.")), [])

/-- The `export_data` case: placeholder text interpolating
`args.format || 'json'` outside any try block. -/
def exportCase (args : Option ToolArgs) : CallOutcome × List ProviderCall :=
  match args with
  | none => (CallOutcome.fault (Fault.typeError (tyErrMsg "format")), [])
  | some a =>
    (CallOutcome.ok (textResult ("Placeholder: Exporting data in "
       ++ jsOrStr a.format "json"
       ++ " format\nThis tool will export browser data to the specified format.")), [])

/-- The `get_recent_browsing` case: reads `hours`, `limit` and
`include_visit_details` with their `||`-defaults (no validation against
the declared schema bounds), then consults the provider inside a try
block. -/
def recentCase (env : ServerEnv) (args : Option ToolArgs) :
    CallOutcome × List ProviderCall :=
  match args with
  | none =>
    (CallOutcome.ok (textResult ("Error retrieving recent browsing activity: " ++ tyErrMsg "hours" ++ recentErrSuffix)), [])
  | some a =>
    let hours := jsOrNum a.hours 24
    let lim := jsOrNum a.limit 50
    let includeDetails : Bool := a.include_visit_details != some false
    match env.dbError with
    | some m =>
      (CallOutcome.ok (textResult ("Error retrieving recent browsing activity: " ++ m ++ recentErrSuffix)),
       [ProviderCall.recent hours lim includeDetails])
    | none =>
      (CallOutcome.ok (textResult (formatRecent hours lim includeDetails
         (getRecentBrowsing env.now hours lim includeDetails env.hostname env.store))),
       [ProviderCall.recent hours lim includeDetails])

/-- The `get_history_stats` case: consults the provider inside a try
block; on success the formatting calls `toLocaleString` on
`total_visits`, which throws (and is caught) when that aggregate is
NULL. -/
def statsCase (env : ServerEnv) : CallOutcome × List ProviderCall :=
  match env.dbError with
  | some m =>
    (CallOutcome.ok (textResult ("Error getting history statistics: " ++ m)), [ProviderCall.stats])
  | none =>
    let stats := getHistoryStats env.store.urls
    match stats.total_visits with
    | none =>
      (CallOutcome.ok (textResult ("Error getting history statistics: " ++ nullLocaleMsg)), [ProviderCall.stats])
    | some tv =>
      (CallOutcome.ok (textResult (statsText stats tv)), [ProviderCall.stats])

/-- The `CallToolRequestSchema` handler of `mcp-server.js`: switch on
the tool name, with the `McpError MethodNotFound` default for an
unregistered name.  The second component is the trace of Data-Provider
invocations the handled request performed. -/
def callTool (env : ServerEnv) (name : String) (args : Option ToolArgs) :
    CallOutcome × List ProviderCall :=
  if name = "search_history" then searchHistoryCase env args
  else if name = "get_bookmarks" then bookmarksCase
  else if name = "analyze_browsing_patterns" then analyzeCase args
  else if name = "export_data" then exportCase args
  else if name = "get_recent_browsing" then recentCase env args
  else if name = "get_history_stats" then statsCase env
  else (CallOutcome.fault (Fault.methodNotFound ("Unknown tool: " ++ name)), [])

/-- The six tool names the `ListToolsRequestSchema` handler registers,
in declaration order. -/
def registeredToolNames : List String :=
  ["search_history", "get_bookmarks", "analyze_browsing_patterns",
   "export_data", "get_recent_browsing", "get_history_stats"]

theorem mem_suffixes (t s : List Char) : t ∈ suffixes s ↔ t <:+ s := by
  induction s with
  | nil => simp [suffixes, List.suffix_nil]
  | cons c cs ih => simp [suffixes, List.suffix_cons_iff, ih]

theorem likeMatch_wild (ps s : List Char) :
    likeMatch ('%' :: ps) s = true ↔ ∃ t, t <:+ s ∧ likeMatch ps t = true := by
  have h1 : likeMatch ('%' :: ps) s = (suffixes s).any (fun t => likeMatch ps t) := rfl
  rw [h1, List.any_eq_true]
  constructor
  · rintro ⟨t, ht, hm⟩
    exact ⟨t, (mem_suffixes t s).mp ht, hm⟩
  · rintro ⟨t, ht, hm⟩
    exact ⟨t, (mem_suffixes t s).mpr ht, hm⟩

theorem likeMatch_plain (qs : List Char) (hq : noWildcards qs = true) :
    ∀ t : List Char, likeMatch (qs ++ ['%']) t = true ↔ lowerList qs <+: lowerList t := by
  induction qs with
  | nil =>
    intro t
    constructor
    · intro _
      exact List.nil_prefix
    · intro _
      rw [List.nil_append, show (['%'] : List Char) = '%' :: [] from rfl, likeMatch_wild]
      exact ⟨[], List.nil_suffix, rfl⟩
  | cons c qs ih =>
    have hall := (List.all_eq_true).mp hq
    have hc := hall c (List.mem_cons_self c qs)
    have hc1 : ¬ c = '%' := by
      have := (Bool.and_eq_true _ _).mp hc
      exact bne_iff_ne.mp this.1
    have hc2 : ¬ c = '_' := by
      have := (Bool.and_eq_true _ _).mp hc
      exact bne_iff_ne.mp this.2
    have hq' : noWildcards qs = true := by
      rw [noWildcards, List.all_eq_true]
      intro x hx
      exact hall x (List.mem_cons_of_mem c hx)
    intro t
    cases t with
    | nil =>
      simp [likeMatch, hc1, lowerList, List.prefix_nil]
    | cons d t2 =>
      simp only [List.cons_append, likeMatch, if_neg hc1, if_neg hc2,
        Bool.and_eq_true, beq_iff_eq, lowerList, List.map_cons,
        List.cons_prefix_cons]
      exact and_congr_right fun _ => ih hq' t2

theorem likeMatch_sound (q s : String) (hw : noWildcards q.data = true)
    (h : likeMatch (sqlPat q) s.data = true) :
    lowerList q.data <:+: lowerList s.data := by
  rw [sqlPat, likeMatch_wild] at h
  obtain ⟨t, hts, hm⟩ := h
  rw [likeMatch_plain q.data hw t] at hm
  exact List.infix_iff_prefix_suffix.mpr ⟨lowerList t, hm, List.IsSuffix.map lowerChar hts⟩

theorem listContains_iff (n h : List Char) : listContains n h = true ↔ n <:+: h := by
  induction h with
  | nil => simp [listContains, List.isPrefixOf_iff_prefix, List.prefix_nil, List.infix_nil]
  | cons c t ih =>
    simp [listContains, List.isPrefixOf_iff_prefix, ih, List.infix_cons_iff]

theorem mem_joinRows {urls : List UrlRow} {visits : List VisitRow}
    {p : UrlRow × VisitRow} (h : p ∈ joinRows urls visits) :
    p.1 ∈ urls ∧ p.2 ∈ visits ∧ p.2.url = p.1.id := by
  induction urls with
  | nil => simp [joinRows] at h
  | cons u rest ih =>
    rw [joinRows, List.mem_append] at h
    rcases h with h | h
    · obtain ⟨v, hv, hp⟩ := List.mem_map.mp h
      obtain ⟨hv1, hv2⟩ := List.mem_filter.mp hv
      subst hp
      exact ⟨List.mem_cons_self u rest, hv1, beq_iff_eq.mp hv2⟩
    · obtain ⟨h1, h2, h3⟩ := ih h
      exact ⟨List.mem_cons_of_mem u h1, h2, h3⟩

theorem applyLimit_sublist (n : Int) (l : List α) : (applyLimit n l).Sublist l := by
  rw [applyLimit]
  split
  · exact List.Sublist.refl l
  · exact List.take_sublist n.toNat l

theorem applyLimit_length {n : Int} (hn : 0 ≤ n) (l : List α) :
    (applyLimit n l).length ≤ n.toNat := by
  rw [applyLimit, if_neg (not_lt.mpr hn)]
  exact List.length_take_le n.toNat l

/-- `ORDER BY last_visit_time DESC` on projected search entries. -/
def byEntryDesc (a b : HistoryEntry) : Prop :=
  b.last_visit_time ≤ a.last_visit_time

theorem callTool_eq_search (env : ServerEnv) (args : Option ToolArgs) :
    callTool env "search_history" args = searchHistoryCase env args := rfl

theorem callTool_eq_bookmarks (env : ServerEnv) (args : Option ToolArgs) :
    callTool env "get_bookmarks" args = bookmarksCase := rfl

theorem callTool_eq_analyze (env : ServerEnv) (args : Option ToolArgs) :
    callTool env "analyze_browsing_patterns" args = analyzeCase args := rfl

theorem callTool_eq_export (env : ServerEnv) (args : Option ToolArgs) :
    callTool env "export_data" args = exportCase args := rfl

theorem callTool_eq_recent (env : ServerEnv) (args : Option ToolArgs) :
    callTool env "get_recent_browsing" args = recentCase env args := rfl

theorem callTool_eq_stats (env : ServerEnv) (args : Option ToolArgs) :
    callTool env "get_history_stats" args = statsCase env := rfl

theorem recentCase_returns_ok (env : ServerEnv) (a : ToolArgs) :
    ∃ r : ToolResult, (recentCase env (some a)).1 = CallOutcome.ok r := by
  simp only [recentCase]
  rcases env.dbError with _ | m
  · exact ⟨_, rfl⟩
  · exact ⟨_, rfl⟩

theorem statsCase_returns_ok (env : ServerEnv) :
    ∃ r : ToolResult, (statsCase env).1 = CallOutcome.ok r := by
  simp only [statsCase]
  rcases env.dbError with _ | m
  · rcases (getHistoryStats env.store.urls).total_visits with _ | tv
    · exact ⟨_, rfl⟩
    · exact ⟨_, rfl⟩
  · exact ⟨_, rfl⟩

/-- An empty history store (fixture for concrete instantiations). -/
def testStore : HistoryStore := ⟨[], []⟩

/-- A benign environment: empty store, no database failure, epoch time,
UTC zone, a URL parser that always fails. -/
def testEnv : ServerEnv := ⟨testStore, none, 0, 0, fun _ => none⟩

/-- The empty argument mapping (every property absent), the minimal
valid arguments for every registered tool: all six input schemas declare
every property optional. -/
def minimalArgs : ToolArgs := {}

/-- Claim C1: for every ToolCallRequest whose name is not one of the six
registered tool names, `callTool` signals the protocol-level
`MethodNotFound` fault (and hence does not return a ToolResult), and no
Data-Provider call is made. -/
theorem callTool_unknown_name_method_not_found (env : ServerEnv) (name : String)
    (args : Option ToolArgs) (h : name ∉ registeredToolNames) :
    callTool env name args
      = (CallOutcome.fault (Fault.methodNotFound ("Unknown tool: " ++ name)), []) := by
  simp only [registeredToolNames, List.mem_cons, List.not_mem_nil, or_false] at h
  push_neg at h
  obtain ⟨h1, h2, h3, h4, h5, h6⟩ := h
  rw [callTool, if_neg h1, if_neg h2, if_neg h3, if_neg h4, if_neg h5, if_neg h6]

theorem callTool_unknown_name_method_not_found_witness :
    "read_cookies" ∉ registeredToolNames
      ∧ callTool testEnv "read_cookies" none
          = (CallOutcome.fault (Fault.methodNotFound "Unknown tool: read_cookies"), []) :=
  ⟨by decide, callTool_unknown_name_method_not_found testEnv "read_cookies" none (by decide)⟩

/-- Claim C2: for every registered tool name, `callTool` with the
minimal valid arguments (the empty mapping — all properties are
declared optional) returns a ToolResult and never raises a
protocol-level fault, in every environment, including those where the
underlying data access fails (`env.dbError` arbitrary). -/
theorem callTool_registered_returns_toolresult (env : ServerEnv) (name : String)
    (h : name ∈ registeredToolNames) :
    ∃ r : ToolResult, (callTool env name (some minimalArgs)).1 = CallOutcome.ok r := by
  simp only [registeredToolNames, List.mem_cons, List.not_mem_nil, or_false] at h
  rcases h with rfl | rfl | rfl | rfl | rfl | rfl
  · exact ⟨_, rfl⟩
  · exact ⟨_, rfl⟩
  · exact ⟨_, rfl⟩
  · exact ⟨_, rfl⟩
  · exact recentCase_returns_ok env minimalArgs
  · exact statsCase_returns_ok env

theorem callTool_registered_returns_toolresult_witness :
    "get_history_stats" ∈ registeredToolNames
      ∧ ∃ r : ToolResult,
          (callTool testEnv "get_history_stats" (some minimalArgs)).1 = CallOutcome.ok r :=
  ⟨by decide, callTool_registered_returns_toolresult testEnv "get_history_stats" (by decide)⟩

/-- Claim C3: `search_history` with an empty (or absent) query and no
start or end date returns the tool-level error ToolResult requesting a
query or date range, and the Data Provider search operation is never
invoked (the call trace is empty). -/
theorem search_history_requires_query_or_dates (env : ServerEnv) (a : ToolArgs)
    (hq : jsOrStr a.query "" = "") (hs : a.start_date = none) (he : a.end_date = none) :
    callTool env "search_history" (some a)
      = (CallOutcome.ok (textResult
          "Error: Please provide either a search query or a date range (or both)"), []) := by
  rw [callTool_eq_search]
  simp [searchHistoryCase, hq, hs, he]

theorem search_history_requires_query_or_dates_witness :
    jsOrStr minimalArgs.query "" = ""
      ∧ minimalArgs.start_date = none
      ∧ minimalArgs.end_date = none
      ∧ callTool testEnv "search_history" (some minimalArgs)
          = (CallOutcome.ok (textResult
              "Error: Please provide either a search query or a date range (or both)"), []) :=
  ⟨by decide, rfl, rfl,
    search_history_requires_query_or_dates testEnv minimalArgs (by decide) rfl rfl⟩

/-- Claim C5 (code bug, evaluated at the failing input): when
`search_history` is called without a `limit` argument, the dispatcher
queries the Data Provider with limit 100 (`args.limit || 100`), not the
50 declared as the default in the registered input schema. -/
theorem search_history_default_limit_is_100 :
    (callTool testEnv "search_history" (some { query := some "a" })).2
        = [ProviderCall.search "a" none none 100]
      ∧ (100 : Int) ≠ 50 := by
  exact ⟨by decide, by decide⟩

/-- Claim C10: when the argument mapping is entirely absent,
`analyze_browsing_patterns` and `export_data` raise an uncaught
`TypeError` that escapes as a protocol-level fault (they dereference the
absent mapping outside any try block), while `search_history`,
`get_recent_browsing`, `get_bookmarks` and `get_history_stats` still
return a ToolResult for the same input. -/
theorem missing_args_dispatch (env : ServerEnv) :
    (callTool env "analyze_browsing_patterns" none).1
        = CallOutcome.fault (Fault.typeError (tyErrMsg "timeframe"))
      ∧ (callTool env "export_data" none).1
          = CallOutcome.fault (Fault.typeError (tyErrMsg "format"))
      ∧ (∃ r : ToolResult, (callTool env "search_history" none).1 = CallOutcome.ok r)
      ∧ (∃ r : ToolResult, (callTool env "get_recent_browsing" none).1 = CallOutcome.ok r)
      ∧ (∃ r : ToolResult, (callTool env "get_bookmarks" none).1 = CallOutcome.ok r)
      ∧ (∃ r : ToolResult, (callTool env "get_history_stats" none).1 = CallOutcome.ok r) := by
  refine ⟨rfl, rfl, ⟨_, rfl⟩, ⟨_, rfl⟩, ⟨_, rfl⟩, statsCase_returns_ok env⟩

theorem missing_args_dispatch_witness :
    (callTool testEnv "analyze_browsing_patterns" none).1
      = CallOutcome.fault (Fault.typeError (tyErrMsg "timeframe")) :=
  (missing_args_dispatch testEnv).1

/-- Claim C9: `getHistoryStats` on a store with zero rows having
`visit_count > 0` does not throw (it is total in the model: the
aggregate query always yields one row) and returns `total_urls = 0` with
NULL earliest and latest visit (and NULL total visits). -/
theorem getHistoryStats_empty_store (urls : List UrlRow)
    (h : ∀ u ∈ urls, ¬ (0 < u.visit_count)) :
    getHistoryStats urls = ⟨0, none, none, none⟩ := by
  have hf : urls.filter (fun u => decide (0 < u.visit_count)) = [] := by
    rw [List.filter_eq_nil_iff]
    intro u hu
    simpa using h u hu
  simp [getHistoryStats, hf, aggSum, aggMin, aggMax]

theorem getHistoryStats_empty_store_witness :
    (∀ u ∈ [UrlRow.mk 1 "http://a" "A" 0 5], ¬ (0 < u.visit_count))
      ∧ getHistoryStats [UrlRow.mk 1 "http://a" "A" 0 5] = ⟨0, none, none, none⟩ :=
  ⟨by decide, getHistoryStats_empty_store [UrlRow.mk 1 "http://a" "A" 0 5] (by decide)⟩

/-- Claim C6: every entry returned by `getRecentBrowsing` comes from a
joined url/visit pair whose individual visit time is at or after the
cutoff `now - hours` (expressed in Chrome microseconds by
`recentCutoff`), and the timestamp the entry reports is the converted
individual visit time, not the URL row's aggregate last-visit time. -/
theorem get_recent_browsing_visit_window (now hours limit : Int)
    (includeDetails : Bool) (hostname : String → Option String)
    (store : HistoryStore) (e : RecentEntry)
    (he : e ∈ getRecentBrowsing now hours limit includeDetails hostname store) :
    ∃ u ∈ store.urls, ∃ v ∈ store.visits,
      v.url = u.id
        ∧ recentCutoff now hours ≤ v.visit_time
        ∧ e.last_visit_date = unixSecs v.visit_time
        ∧ e.url = u.url := by
  simp only [getRecentBrowsing] at he
  obtain ⟨p, hp, hpe⟩ := List.mem_map.mp he
  have hp2 : p ∈ (joinRows store.urls store.visits).filter
      (fun q => decide (recentCutoff now hours ≤ q.2.visit_time)) :=
    (List.perm_insertionSort byVisitTimeDesc _).mem_iff.mp
      ((applyLimit_sublist limit _).subset hp)
  obtain ⟨hp3, hp4⟩ := List.mem_filter.mp hp2
  obtain ⟨hu, hv, hid⟩ := mem_joinRows hp3
  subst hpe
  exact ⟨p.1, hu, p.2, hv, hid, of_decide_eq_true hp4, rfl, rfl⟩

/-- Fixture for the C6 witness: one URL with one visit at the epoch
time, queried at `now = 0` over 24 hours. -/
def w6Store : HistoryStore :=
  ⟨[⟨1, "http://a", "A", 2, 1000000⟩], [⟨1, 11644473600000000⟩]⟩

/-- The entry `getRecentBrowsing` produces from `w6Store`. -/
def w6Entry : RecentEntry :=
  ⟨"http://a", "A", 0, 2, some "Unknown"⟩

theorem get_recent_browsing_visit_window_witness :
    (w6Entry ∈ getRecentBrowsing 0 24 50 true (fun _ => none) w6Store)
      ∧ ∃ u ∈ w6Store.urls, ∃ v ∈ w6Store.visits,
          v.url = u.id
            ∧ recentCutoff 0 24 ≤ v.visit_time
            ∧ w6Entry.last_visit_date = unixSecs v.visit_time
            ∧ w6Entry.url = u.url :=
  ⟨by decide,
    get_recent_browsing_visit_window 0 24 50 true (fun _ => none) w6Store w6Entry (by decide)⟩

/-- Fixture for the C7 counterexample: `now` = 800000000000 ms, one URL
with a single visit about 187 hours ago — inside a 200-hour window but
outside the declared 168-hour maximum. -/
def c7Now : Int := 800000000000

/-- The single visit of the C7 fixture (Chrome microseconds; about
187 hours before `c7Now`). -/
def c7Visit : VisitRow := ⟨1, 12443800000000000⟩

/-- The C7 fixture store. -/
def c7Store : HistoryStore := ⟨[⟨1, "http://old", "Old", 1, 0⟩], [c7Visit]⟩

/-- The C7 fixture environment. -/
def c7Env : ServerEnv := ⟨c7Store, none, c7Now, 0, fun _ => none⟩

/-- The entry `getRecentBrowsing` produces from the C7 fixture. -/
def c7Entry : RecentEntry := ⟨"http://old", "Old", 799326400, 1, some "Unknown"⟩

/-- Claim C7 counterexample: `get_recent_browsing` called with
`hours = 200` is neither rejected (the outcome is a ToolResult, not a
fault) nor clamped (the provider is invoked with 200, and an entry whose
visit lies outside the declared 168-hour bound is returned). -/
theorem get_recent_browsing_hours_not_clamped_cex :
    (callTool c7Env "get_recent_browsing" (some { hours := some 200 })).2
        = [ProviderCall.recent 200 50 true]
      ∧ (∃ r : ToolResult,
          (callTool c7Env "get_recent_browsing" (some { hours := some 200 })).1
            = CallOutcome.ok r)
      ∧ c7Entry ∈ getRecentBrowsing c7Now 200 50 true (fun _ => none) c7Store
      ∧ c7Visit.visit_time < recentCutoff c7Now 168 := by
  refine ⟨by decide, ⟨_, rfl⟩, by decide, by decide⟩

/-- Claim C7 (amended): the declared `[1,168]` bound on `hours` is not
enforced by the server: any non-zero `hours` argument (`0` falls to the
`|| 24` default) is passed through to the Data Provider unchanged, and
the call executes normally. -/
theorem get_recent_browsing_hours_passthrough (env : ServerEnv) (a : ToolArgs)
    (h : Int) (ha : a.hours = some h) (h0 : h ≠ 0) :
    (callTool env "get_recent_browsing" (some a)).2
        = [ProviderCall.recent h (jsOrNum a.limit 50) (a.include_visit_details != some false)]
      ∧ ∃ r : ToolResult,
          (callTool env "get_recent_browsing" (some a)).1 = CallOutcome.ok r := by
  constructor
  · rw [callTool_eq_recent]
    rcases hd : env.dbError with _ | m <;>
      simp [recentCase, hd, ha, jsOrNum, h0]
  · rw [callTool_eq_recent]
    exact recentCase_returns_ok env a

theorem get_recent_browsing_hours_passthrough_witness :
    ({ hours := some 200 } : ToolArgs).hours = some 200
      ∧ (200 : Int) ≠ 0
      ∧ (callTool testEnv "get_recent_browsing" (some ({ hours := some 200 } : ToolArgs))).2
          = [ProviderCall.recent 200 50 true]
      ∧ ∃ r : ToolResult,
          (callTool testEnv "get_recent_browsing"
            (some ({ hours := some 200 } : ToolArgs))).1 = CallOutcome.ok r :=
  ⟨rfl, by decide,
    (get_recent_browsing_hours_passthrough testEnv { hours := some 200 } 200 rfl (by decide)).1,
    (get_recent_browsing_hours_passthrough testEnv { hours := some 200 } 200 rfl (by decide)).2⟩

/-- Fixture for the C4 counterexample: a URL whose text matches the
query only through `LIKE` wildcard semantics (or through the skipped
filter for a whitespace query). -/
def c4Row : UrlRow := ⟨3, "axb", "t", 1, 100⟩

/-- Claim C4 counterexample: the universal substring property fails.
With query `"a_b"` (non-empty) the underscore acts as a `LIKE` wildcard
and the entry `"axb"` is returned although neither its URL nor its title
contains `"a_b"` as a case-insensitive substring; with query `" "`
(non-empty, but empty after trimming) the text filter is skipped
entirely and an entry containing no space is returned. -/
theorem search_history_substring_claim_cex :
    (searchHistory 0 "a_b" ⟨none, none, 10⟩ [c4Row] = [rowToEntry c4Row]
        ∧ ¬ lowerList "a_b".data <:+: lowerList "axb".data
        ∧ ¬ lowerList "a_b".data <:+: lowerList "t".data)
      ∧ (searchHistory 0 " " ⟨none, none, 10⟩ [c4Row] = [rowToEntry c4Row]
        ∧ ¬ lowerList " ".data <:+: lowerList "axb".data
        ∧ ¬ lowerList " ".data <:+: lowerList "t".data) := by
  refine ⟨⟨by decide, ?_, ?_⟩, ⟨by decide, ?_, ?_⟩⟩
  all_goals
    rw [← listContains_iff]
    decide

/-- Claim C4 (amended): for every `search_history` query that is
non-empty after trimming and contains no SQLite `LIKE` wildcard
(`%`, `_`), every returned entry's URL or title contains the query as a
case-insensitive unanchored substring; entries additionally satisfy the
inclusive converted start/end date bounds when given; the result is
ordered by last-visit time descending; and, for a non-negative limit
(SQLite treats a negative `LIMIT` as unlimited), the result length is
capped at the limit. -/
theorem search_history_filter_sound (tz : Int) (q : String) (opts : SearchOptions)
    (urls : List UrlRow) (hq : jsTrim q ≠ "") (hw : noWildcards q.data = true) :
    (∀ e ∈ searchHistory tz q opts urls,
        (lowerList q.data <:+: lowerList e.url.data
            ∨ lowerList q.data <:+: lowerList e.title.data)
          ∧ (∀ d, opts.startDate = some d → startTimestamp tz d ≤ e.last_visit_time)
          ∧ (∀ d, opts.endDate = some d → e.last_visit_time ≤ endTimestamp tz d))
      ∧ List.Sorted byEntryDesc (searchHistory tz q opts urls)
      ∧ (0 ≤ opts.limit → (searchHistory tz q opts urls).length ≤ opts.limit.toNat) := by
  have hhq : decide (jsTrim q ≠ "") = true := decide_eq_true hq
  refine ⟨?_, ?_, ?_⟩
  · intro e he
    simp only [searchHistory] at he
    obtain ⟨r, hr, hre⟩ := List.mem_map.mp he
    have hr2 : r ∈ urls.filter
        (sqlWhere tz (decide (jsTrim q ≠ "")) q opts.startDate opts.endDate) :=
      (List.perm_insertionSort byVisitDesc _).mem_iff.mp
        ((applyLimit_sublist opts.limit _).subset hr)
    obtain ⟨hru, hrw⟩ := List.mem_filter.mp hr2
    rw [sqlWhere.eq_def, hhq, Bool.not_true, Bool.false_or, Bool.and_eq_true,
      Bool.and_eq_true, Bool.or_eq_true] at hrw
    obtain ⟨⟨hlike, hsd⟩, hed⟩ := hrw
    subst hre
    refine ⟨?_, ?_, ?_⟩
    · rcases hlike with hl | hl
      · exact Or.inl (likeMatch_sound q r.url hw hl)
      · exact Or.inr (likeMatch_sound q r.title hw hl)
    · intro d hd
      rw [hd] at hsd
      exact of_decide_eq_true hsd
    · intro d hd
      rw [hd] at hed
      exact of_decide_eq_true hed
  · simp only [searchHistory]
    have hs := List.sorted_insertionSort byVisitDesc
      (urls.filter (sqlWhere tz (decide (jsTrim q ≠ "")) q opts.startDate opts.endDate))
    have hs2 := List.Pairwise.sublist (applyLimit_sublist opts.limit _) hs
    exact List.Pairwise.map rowToEntry (fun a b hab => hab) hs2
  · intro hl
    simp only [searchHistory, List.length_map]
    exact applyLimit_length hl _

/-- Fixture for the C4 witness: two rows matching "github"
case-insensitively, one by URL and one by title. -/
def w4Rows : List UrlRow :=
  [⟨1, "https://github.com/x", "Repo", 3, 500⟩,
   ⟨2, "https://example.com", "My GitHub", 1, 900⟩]

theorem search_history_filter_sound_witness :
    jsTrim "github" ≠ ""
      ∧ noWildcards "github".data = true
      ∧ ((∀ e ∈ searchHistory 0 "github" ⟨none, none, 50⟩ w4Rows,
            (lowerList "github".data <:+: lowerList e.url.data
                ∨ lowerList "github".data <:+: lowerList e.title.data)
              ∧ (∀ d, (⟨none, none, 50⟩ : SearchOptions).startDate = some d →
                  startTimestamp 0 d ≤ e.last_visit_time)
              ∧ (∀ d, (⟨none, none, 50⟩ : SearchOptions).endDate = some d →
                  e.last_visit_time ≤ endTimestamp 0 d))
          ∧ List.Sorted byEntryDesc (searchHistory 0 "github" ⟨none, none, 50⟩ w4Rows)
          ∧ (0 ≤ (⟨none, none, 50⟩ : SearchOptions).limit →
              (searchHistory 0 "github" ⟨none, none, 50⟩ w4Rows).length
                ≤ (⟨none, none, 50⟩ : SearchOptions).limit.toNat)) :=
  ⟨by decide, by decide,
    search_history_filter_sound 0 "github" ⟨none, none, 50⟩ w4Rows (by decide) (by decide)⟩

/-- The example bookmark tree of the claim, in parsed form:
`roots.bookmark_bar` containing one folder `Work` with one url leaf. -/
def exRoots : List (String × List BmNode) :=
  [("bookmark_bar", [BmNode.folder "Work" [BmNode.url "X" "http://x" 13300000000000000]])]

/-- Claim C8: `getBookmarks` flattens the bookmark tree depth-first in
stored child order, assigning every url leaf the accumulated folder path
(a url leaf at an empty path gets `"Root"`, and a folder extends a
non-empty path with a `/` separator); on the example tree it yields
exactly one record with folder `bookmark_bar/Work`, title `X`, url
`http://x`; and a non-empty `folder` argument keeps exactly the records
whose accumulated path contains it as a case-insensitive substring. -/
theorem getBookmarks_flatten_and_filter :
    getBookmarks exRoots none
        = [⟨"X", "http://x", 13300000000000, "bookmark_bar/Work"⟩]
      ∧ (∀ (n u : String) (da : Int) (rest : List BmNode),
          extractBookmarks (BmNode.url n u da :: rest) ""
            = ⟨n, u, da / 1000, "Root"⟩ :: extractBookmarks rest "")
      ∧ (∀ (n fp : String) (cs rest : List BmNode), fp ≠ "" →
          extractBookmarks (BmNode.folder n cs :: rest) fp
            = extractBookmarks cs (fp ++ "/" ++ n) ++ extractBookmarks rest fp)
      ∧ (∀ (roots : List (String × List BmNode)) (t : String) (b : Bookmark), t ≠ "" →
          (b ∈ getBookmarks roots (some t)
            ↔ b ∈ getBookmarks roots none
                ∧ lowerList t.data <:+: lowerList b.folder.data)) := by
  refine ⟨by simp [getBookmarks, exRoots, extractBookmarks], ?_, ?_, ?_⟩
  · intro n u da rest
    simp [extractBookmarks]
  · intro n fp cs rest hfp
    simp [extractBookmarks, hfp]
  · intro roots t b ht
    simp only [getBookmarks, if_neg ht]
    rw [List.mem_filter]
    exact and_congr_right fun _ => by rw [jsIncludesCI, listContains_iff]

/-- The single record flattened from the example tree (fixture for the
C8 witness). -/
def exRecord : Bookmark := ⟨"X", "http://x", 13300000000000, "bookmark_bar/Work"⟩

theorem getBookmarks_flatten_and_filter_witness :
    ("WORK" ≠ "")
      ∧ (exRecord ∈ getBookmarks exRoots (some "WORK")
          ↔ exRecord ∈ getBookmarks exRoots none
              ∧ lowerList "WORK".data <:+: lowerList exRecord.folder.data) :=
  ⟨by decide, getBookmarks_flatten_and_filter.2.2.2 exRoots "WORK" exRecord (by decide)⟩
